import Mathlib

/-!
Shallow embedding of the subscription-filter logic of
`webapp/src/components/modals/channel_settings/edit_channel_settings.tsx`
and the slash-command hook of `webapp/src/hooks/hooks.js`
(mattermost-plugin-jira webapp).

React `setState` calls are modelled as pure state transformers on a
`CompState` record; asynchronous `.then` callbacks are modelled as separate
pure functions applied to the state current at response time.  JS `null` /
`undefined` become `Option`; JS string-or-array-or-null setting values become
the `SettingValue` sum; JS truthiness of a string is `≠ ""`.
-/

namespace JiraPlugin

/-- An issue type as it appears in Jira project metadata (id and display name). -/
structure IssueType where
  id : String
  name : String
  deriving DecidableEq, Repr, Inhabited

/-- A custom-field filter definition from the project schema: its key, display
name, and the issue types for which the field is applicable (spec §3,
CustomFieldFilter). -/
structure FilterField where
  key : String
  name : String
  issueTypes : List IssueType
  deriving DecidableEq, Repr, Inhabited

/-- A conflict record pairing a custom field with the issue type(s) that do not
support it (spec §3, ConflictRecord; the shape consumed by
`handleIssueChange` as `{field, issueTypes}`). -/
structure ConflictRecord where
  field : FilterField
  issueTypes : List IssueType
  deriving DecidableEq, Repr, Inhabited

/-- Jira issue metadata (`props.jiraIssueMetadata`): per-project custom-field
filter schemas plus the issue types defined in the metadata. -/
structure JiraIssueMetadata where
  projectFields : List (String × List FilterField)
  issueTypes : List IssueType
  deriving DecidableEq, Repr, Inhabited

/-- A selected custom-field filter value stored in `filters.fields`; only the
`key` is inspected by the component logic. -/
structure FieldValue where
  key : String
  deriving DecidableEq, Repr, Inhabited

/-- `ChannelSubscriptionFilters` (types/model): the filter selection held in
component state. -/
structure Filters where
  events : List String
  projects : List String
  issue_types : List String
  fields : List FieldValue
  deriving DecidableEq, Repr, Inhabited

/-- The component state of `EditChannelSettings` (lines 54-63). -/
structure CompState where
  filters : Filters
  fetchingIssueMetadata : Bool
  error : Option String
  getMetaDataErr : Option String
  submitting : Bool
  subscriptionName : Option String
  showConfirmModal : Bool
  conflictingError : Option String
  deriving DecidableEq, Repr, Inhabited

/-- A runtime value handed to a setting-change handler: JS `null`/`undefined`,
a bare string, or an array of strings. -/
inductive SettingValue where
  | null
  | str (s : String)
  | list (l : List String)
  deriving DecidableEq, Repr, Inhabited

/-- The string-list keys of `ChannelSubscriptionFilters` that
`handleSettingChange` / `handleProjectChange` write through. -/
inductive SettingKey where
  | events
  | projects
  | issue_types
  deriving DecidableEq, Repr, Inhabited

/-- Filters as found on a stored subscription being edited; `fields` may be
absent on old data, which line 84 (`filters.fields = filters.fields || []`)
guards against. -/
structure SeedFilters where
  events : List String
  projects : List String
  issue_types : List String
  fields : Option (List FieldValue)
  deriving DecidableEq, Repr, Inhabited

/-- A stored `ChannelSubscription` (id, channel, name, filters). -/
structure Subscription where
  id : String
  channel_id : String
  name : String
  filters : SeedFilters
  deriving DecidableEq, Repr, Inhabited

/-- `fetched.data` of a metadata fetch result; only its `error` field is
inspected by the callback (line 196). -/
structure FetchedData where
  error : Option String
  deriving DecidableEq, Repr, Inhabited

/-- Result of `fetchJiraIssueMetadataForProjects`: a possible top-level error
and a possible data payload. -/
structure FetchResult where
  error : Option String
  data : Option FetchedData
  deriving DecidableEq, Repr, Inhabited

/-- Error shape of the persistence API: `{message: string}` (spec §6). -/
structure ApiError where
  message : String
  deriving DecidableEq, Repr, Inhabited

/-- Response of create/edit/delete: `{data|error}`; only `error` is inspected. -/
structure ApiResponse where
  error : Option ApiError
  deriving DecidableEq, Repr, Inhabited

/-- The subscription payload built by `handleCreate` (lines 271-275). -/
structure SubscriptionPayload where
  channel_id : String
  filters : Filters
  name : Option String
  id : Option String
  deriving DecidableEq, Repr, Inhabited

/-- Modelled from the spec: `getCustomFieldFiltersForProjects`
(utils/jira_issue_metadata, not under src/).  Returns the custom-field filter
definitions available in the given projects' schemas; with no metadata there
are no fields. -/
def getCustomFieldFiltersForProjects (md : Option JiraIssueMetadata)
    (projects : List String) : List FilterField :=
  match md with
  | none => []
  | some m => projects.flatMap fun p =>
      (((m.projectFields.find? fun pr => pr.1 = p).map Prod.snd).getD [])

/-- Look up an issue type by id in the metadata; the id itself is the fallback
display name when the metadata is missing it. -/
def lookupIssueType (md : Option JiraIssueMetadata) (tid : String) : IssueType :=
  match md with
  | none => { id := tid, name := tid }
  | some m => (m.issueTypes.find? fun it => it.id = tid).getD { id := tid, name := tid }

/-- Modelled from the spec: `getConflictingFields` (utils/jira_issue_metadata,
not under src/).  Conflict-detection policy (spec §4.1): only fields whose
definition excludes at least one of the candidate issue types are flagged;
each flagged field is paired with the candidate issue types that do not
support it. -/
def getConflictingFields (fields : List FilterField) (chosenIssueTypes : List String)
    (md : Option JiraIssueMetadata) : List ConflictRecord :=
  fields.filterMap fun f =>
    let excluded := chosenIssueTypes.filter fun tid =>
      !(f.issueTypes.any fun it => it.id = tid)
    if excluded.isEmpty then none
    else some { field := f, issueTypes := excluded.map (lookupIssueType md) }

/-- The fresh empty filters built at the top of the constructor (lines 71-76). -/
def initialFilters : Filters :=
  { events := [], projects := [], issue_types := [], fields := [] }

/-- Constructor seeding (lines 79-84): merge the selected subscription's
filters over the defaults, then force `fields` to an array
(`filters.fields = filters.fields || []`). -/
def initFilters (sel : Option Subscription) : Filters :=
  match sel with
  | none => initialFilters
  | some sub =>
      { events := sub.filters.events
        projects := sub.filters.projects
        issue_types := sub.filters.issue_types
        fields := sub.filters.fields.getD [] }

/-- Constructor state (lines 86-101); `fetchingIssueMetadata` is true exactly
when the seeded filters carry a project (line 87). -/
def initState (sel : Option Subscription) : CompState :=
  { filters := initFilters sel
    fetchingIssueMetadata := !(initFilters sel).projects.isEmpty
    error := none
    getMetaDataErr := none
    submitting := false
    subscriptionName := sel.map (·.name)
    showConfirmModal := false
    conflictingError := none }

/-- The normalization at the top of `handleSettingChange` (lines 143-148) and
`handleProjectChange` (lines 215-220): a falsy value (null/undefined/empty
string) becomes `[]`, a truthy non-array is wrapped into a one-element array,
an array passes through. -/
def normalizeSettingValue : SettingValue → List String
  | .null => []
  | .str v => if v = "" then [] else [v]
  | .list l => l

/-- Write a string-list filter key (`filters[id] = finalValue`, line 150). -/
def setFilterKey (k : SettingKey) (xs : List String) (f : Filters) : Filters :=
  match k with
  | .events => { f with events := xs }
  | .projects => { f with projects := xs }
  | .issue_types => { f with issue_types := xs }

/-- Read a string-list filter key, for stating properties. -/
def getFilterKey (k : SettingKey) (f : Filters) : List String :=
  match k with
  | .events => f.events
  | .projects => f.projects
  | .issue_types => f.issue_types

/-- `handleSettingChange` (lines 142-153): normalize the incoming value, write
it through the given key, and clear any standing conflict message. -/
def handleSettingChange (k : SettingKey) (v : SettingValue) (s : CompState) : CompState :=
  { s with
    filters := setFilterKey k (normalizeSettingValue v) s.filters
    conflictingError := none }

/-- `handleFilterFieldChange` (lines 244-247): replace the selected fields
wholesale and clear any standing conflict message. -/
def handleFilterFieldChange (fields : List FieldValue) (s : CompState) : CompState :=
  { s with filters := { s.filters with fields := fields }, conflictingError := none }

/-- The conflict records computed in `handleIssueChange` (lines 165-170):
conflicts of the current projects' schema fields against the new issue-type
selection. -/
def projectConflictingFields (md : Option JiraIssueMetadata) (s : CompState)
    (finalValue : List String) : List ConflictRecord :=
  getConflictingFields (getCustomFieldFiltersForProjects md s.filters.projects) finalValue md

/-- The subset of the conflict records whose field is currently selected
(lines 174-176): `conflictingFields.filter(f1 => fields.find(f2 => f1.field.key === f2.key))`. -/
def selectedConflicting (md : Option JiraIssueMetadata) (s : CompState)
    (finalValue : List String) : List ConflictRecord :=
  (projectConflictingFields md s finalValue).filter fun f1 =>
    s.filters.fields.any fun f2 => f1.field.key = f2.key

/-- The conflict message of lines 182-183 (note the two spaces after the
period, exactly as in the template literal). -/
def conflictErrorStr (issueTypeName fieldsStr : String) : String :=
  "Issue Type(s) \"" ++ issueTypeName ++ "\" does not have filter field(s): \"" ++
    fieldsStr ++ "\".  Please update the conflicting fields or create a separate subscription."

/-- `handleIssueChange` (lines 159-190).  `value || []`; the conflict
computation runs only when the new selection is longer than the current one
(line 164); a JS `null` conflict list and an empty one behave identically at
the `conflictingFields && conflictingFields.length` guard, so both are `[]`
here.  When conflicts touch a selected field the handler sets only
`conflictingError` and returns (state otherwise untouched); otherwise it
stores the new issue types and clears the conflict message. -/
def handleIssueChange (md : Option JiraIssueMetadata) (value : Option (List String))
    (s : CompState) : CompState :=
  let finalValue := value.getD []
  let filters := { s.filters with issue_types := finalValue }
  let conflictingFields :=
    if finalValue.length > s.filters.issue_types.length then
      projectConflictingFields md s finalValue
    else []
  if conflictingFields.isEmpty then
    { s with filters := filters, conflictingError := none }
  else
    let sel := selectedConflicting md s finalValue
    if sel.isEmpty then
      { s with filters := filters, conflictingError := none }
    else
      let fieldsStr := String.intercalate ", " (sel.map fun cf => cf.field.name)
      let conflictingIssueType :=
        ((projectConflictingFields md s finalValue).headD default).issueTypes.headD default
      { s with conflictingError := some (conflictErrorStr conflictingIssueType.name fieldsStr) }

/-- The metadata-unavailable message of line 198; JS indexing of an empty
array yields `undefined`, hence the fallback text. -/
def metaDataErrMsg (projectKeys : List String) : String :=
  "The project " ++ projectKeys.headD "undefined" ++
    " is unavailable. Please contact your system administrator."

/-- The removed-field warning of line 204. -/
def removedFieldMsg : String :=
  "A field in this subscription has been removed from Jira, so the subscription is invalid. When this form is submitted, the configured field will be removed from the subscription to make the subscription valid again."

/-- The `.then` callback of `fetchIssueMetadata` (lines 193-209), applied to
the component state current when the response arrives.  `md` is
`props.jiraIssueMetadata` at that time; `projectKeys` is the argument the
fetch was started with.  The callback builds a partial state
(`{fetchingIssueMetadata: false}` plus conditionally `getMetaDataErr` and
`error`) and merges it, so unset keys keep their current values. -/
def applyFetchResult (md : Option JiraIssueMetadata) (projectKeys : List String)
    (fetched : FetchResult) (s : CompState) : CompState :=
  let hasError := fetched.error.isSome ||
    (match fetched.data with
     | some d => d.error.isSome
     | none => false)
  let getErr := if hasError then some (metaDataErrMsg projectKeys) else s.getMetaDataErr
  let filterFields := getCustomFieldFiltersForProjects md s.filters.projects
  let err :=
    if s.filters.fields.any (fun v => !(filterFields.any fun f => f.key = v.key)) then
      some removedFieldMsg
    else s.error
  { s with fetchingIssueMetadata := false, getMetaDataErr := getErr, error := err }

/-- `handleProjectChange` (lines 212-242): clear the conflict message,
normalize the value, replace the FilterSet with a fresh one scoped to the new
project, and start a metadata fetch when a project is selected.  The second
component is the project-keys argument of the fetch that was started, if
any. -/
def handleProjectChange (value : SettingValue) (s : CompState) :
    CompState × Option (List String) :=
  let projects := normalizeSettingValue value
  let filters : Filters :=
    { projects := projects, issue_types := [], events := [], fields := [] }
  let fetching := !projects.isEmpty
  ({ s with
      conflictingError := none
      fetchingIssueMetadata := fetching
      getMetaDataErr := none
      filters := filters },
   if projects.isEmpty then none else some projects)

/-- The field-dropping loop of `handleCreate` (lines 259-264): start from a
copy of the selected fields and, for each selected field whose key is absent
from the schema, splice out its first occurrence. -/
def removeAbsentFields (filterFields : List FilterField)
    (fields : List FieldValue) : List FieldValue :=
  fields.foldl
    (fun acc v =>
      if filterFields.any (fun f => f.key = v.key) then acc else acc.erase v)
    fields

/-- The sanitized fields of the submit payload. -/
def prepareSubmitFields (md : Option JiraIssueMetadata) (s : CompState) : List FieldValue :=
  removeAbsentFields (getCustomFieldFiltersForProjects md s.filters.projects) s.filters.fields

/-- The subscription payload built by `handleCreate` after validation
(lines 258-280): current filters with sanitized fields, the channel id, the
subscription name, and the existing id when editing. -/
def buildSubscription (md : Option JiraIssueMetadata) (channelId : String)
    (selected : Option Subscription) (s : CompState) : SubscriptionPayload :=
  { channel_id := channelId
    filters := { s.filters with fields := prepareSubmitFields md s }
    name := s.subscriptionName
    id := selected.map (·.id) }

/-- The `.then` callback shared by `createChannelSubscription` and
`editChannelSubscription` in `handleCreate` (lines 281-295): on error surface
`error.message`, stop submitting, and keep the modal open; on success close
it.  The boolean is whether `finishEditSubscription` ran (via
`handleClose`). -/
def applySubmitResult (res : ApiResponse) (s : CompState) : CompState × Bool :=
  match res.error with
  | some e => ({ s with error := some e.message, submitting := false }, false)
  | none => (s, true)

/-- The `.then` callback of `deleteChannelSubscription` (lines 119-125): on
error surface `error.message` and keep the modal open; on success close it. -/
def applyDeleteResult (res : ApiResponse) (s : CompState) : CompState × Bool :=
  match res.error with
  | some e => ({ s with error := some e.message }, false)
  | none => (s, true)

/-! Slash-command hook (`webapp/src/hooks/hooks.js`).  Store selectors become
a `StoreState` record, dispatched actions and `window.open` become effects,
and the resolved promise value becomes a `HookResult`. -/

/-- The slice of redux store state read by the hook's selectors. -/
structure StoreState where
  instanceInstalled : Bool
  userConnected : Bool
  installedInstanceType : String
  desktopApp : Bool
  minimumDesktopAppVersion430 : Bool
  deriving DecidableEq, Repr, Inhabited

/-- The `contextArgs` of a slash command; only `channel_id` is read. -/
structure ContextArgs where
  channel_id : String
  deriving DecidableEq, Repr, Inhabited

/-- Side effects the hook can produce (dispatches and `window.open`). -/
inductive Effect where
  | sendEphemeralPost (msg : String)
  | openCreateModalWithoutPost (description : String) (channelId : String)
  | openChannelSettings (channelId : String)
  | windowOpen (url : String)
  deriving DecidableEq, Repr, Inhabited

/-- The value the hook's promise resolves to: the empty object `\x7b\x7d`
(suppressing the post) or the forwarded `message`/`args` pair. -/
inductive HookResult where
  | empty
  | forward (message : String) (args : ContextArgs)
  deriving DecidableEq, Repr, Inhabited

/-- `PluginId` is imported from outside this fragment; its value is irrelevant
to the properties proved here. -/
def pluginId : String := "jira"

/-- `String.startsWith`, embedded as a prefix test on the character data. -/
def strStartsWith (m pre : String) : Bool :=
  pre.data.isPrefixOf m.data

def noInstanceMsg : String :=
  "There is no Jira instance installed. Please contact your system administrator."

def notConnectedMsg : String :=
  "Your Mattermost account is not connected to Jira. Please use `/jira connect` to connect your account, then try again."

def alreadyConnectedMsg : String :=
  "You already have a Jira account linked to your Mattermost account. Please use `/jira disconnect` to disconnect."

def desktopVersionMsg : String :=
  "The current version of your desktop app does not support connecting to Jira directly. Please connect through your browser or [see here](https://github.com/mattermost/mattermost-plugin-jira) for details on upgrading."

/-- The guard of the create branch (line 15): trailing-space prefix or exact
match. -/
def matchesCreate (m : String) : Bool :=
  strStartsWith m "/jira create " || (m = "/jira create")

/-- The guard of the connect branch (line 29): note the first disjunct has no
trailing space, so any message starting with "/jira connect" matches. -/
def matchesConnect (m : String) : Bool :=
  strStartsWith m "/jira connect" || (m = "/jira connect")

/-- The guard of the subscribe branch (line 49): trailing-space prefix or
exact match. -/
def matchesSubscribe (m : String) : Bool :=
  strStartsWith m "/jira subscribe " || (m = "/jira subscribe")

/-- A message is handled (suppressed) when it is truthy and matches one of the
three branch guards. -/
def handledMessage (m : String) : Bool :=
  (!(m = "")) && (matchesCreate m || matchesConnect m || matchesSubscribe m)

/-- `slashCommandWillBePostedHook` (hooks.js lines 14-63). -/
def slashCommandWillBePostedHook (st : StoreState) (message : String)
    (args : ContextArgs) : HookResult × List Effect :=
  if (!(message = "")) && matchesCreate message then
    if !st.instanceInstalled then
      (.empty, [.sendEphemeralPost noInstanceMsg])
    else if !st.userConnected then
      (.empty, [.sendEphemeralPost notConnectedMsg])
    else
      (.empty, [.openCreateModalWithoutPost ((message.drop 12).trim) args.channel_id])
  else if (!(message = "")) && matchesConnect message then
    if !st.instanceInstalled then
      (.empty, [.sendEphemeralPost noInstanceMsg])
    else if st.userConnected then
      (.empty, [.sendEphemeralPost alreadyConnectedMsg])
    else if (st.installedInstanceType = "server") && st.desktopApp &&
        !st.minimumDesktopAppVersion430 then
      (.empty, [.sendEphemeralPost desktopVersionMsg])
    else
      (.empty, [.windowOpen ("/plugins/" ++ pluginId ++ "/user/connect")])
  else if (!(message = "")) && matchesSubscribe message then
    if !st.instanceInstalled then
      (.empty, [.sendEphemeralPost noInstanceMsg])
    else if !st.userConnected then
      (.empty, [.sendEphemeralPost notConnectedMsg])
    else
      (.empty, [.openChannelSettings args.channel_id])
  else
    (.forward message args, [])

/-! Characterizations of `handleIssueChange`'s three outcomes, shared by the
claims about issue-type changes. -/

/-- The accepting outcome of `handleIssueChange` (line 189): the new issue
types are stored and the conflict message is cleared. -/
def issueChangeAccept (s : CompState) (fv : List String) : CompState :=
  { s with filters := { s.filters with issue_types := fv }, conflictingError := none }

/-- The rejecting outcome of `handleIssueChange` (lines 179-185): only
`conflictingError` is written; it names the first excluded issue type of the
first conflict record and comma-joins the names of the selected conflicting
fields. -/
def issueChangeReject (md : Option JiraIssueMetadata) (s : CompState)
    (fv : List String) : CompState :=
  { s with
    conflictingError := some (conflictErrorStr
      (((projectConflictingFields md s fv).headD default).issueTypes.headD default).name
      (String.intercalate ", " ((selectedConflicting md s fv).map fun cf => cf.field.name))) }

theorem handleIssueChange_of_not_longer (md : Option JiraIssueMetadata)
    (value : Option (List String)) (s : CompState)
    (h : ¬ (value.getD []).length > s.filters.issue_types.length) :
    handleIssueChange md value s = issueChangeAccept s (value.getD []) := by
  unfold handleIssueChange issueChangeAccept
  simp [h]

theorem handleIssueChange_of_longer_unselected (md : Option JiraIssueMetadata)
    (value : Option (List String)) (s : CompState)
    (hlen : (value.getD []).length > s.filters.issue_types.length)
    (hsel : selectedConflicting md s (value.getD []) = []) :
    handleIssueChange md value s = issueChangeAccept s (value.getD []) := by
  unfold handleIssueChange issueChangeAccept
  rcases hpc : projectConflictingFields md s (value.getD []) with _ | ⟨c, cs⟩
  · simp [hlen, hpc]
  · simp [hlen, hpc, hsel]

theorem handleIssueChange_of_longer_selected (md : Option JiraIssueMetadata)
    (value : Option (List String)) (s : CompState)
    (hlen : (value.getD []).length > s.filters.issue_types.length)
    (hsel : selectedConflicting md s (value.getD []) ≠ []) :
    handleIssueChange md value s = issueChangeReject md s (value.getD []) := by
  have hcfs : projectConflictingFields md s (value.getD []) ≠ [] := by
    intro h
    apply hsel
    unfold selectedConflicting
    rw [h]
    rfl
  unfold handleIssueChange issueChangeReject
  rcases hpc : projectConflictingFields md s (value.getD []) with _ | ⟨c, cs⟩
  · exact absurd hpc hcfs
  · rcases hq : selectedConflicting md s (value.getD []) with _ | ⟨d, ds⟩
    · exact absurd hq hsel
    · simp [hlen, hpc, hq]

/-! Lemmas about the erase-loop of `handleCreate`: iterating the selected
fields and splicing out one occurrence per absent-keyed field leaves exactly
the present-keyed ones. -/

/-- Every element surviving the erase loop satisfies the keep predicate,
provided the accumulator holds no more copies of any to-be-erased element
than the iteration list still schedules erasures for. -/
theorem foldl_erase_mem_of_count_le (p : FieldValue → Bool) :
    ∀ (l acc : List FieldValue),
      (∀ x : FieldValue, p x = false → acc.count x ≤ l.count x) →
      ∀ v ∈ List.foldl (fun acc v => if p v then acc else acc.erase v) acc l,
        p v = true := by
  intro l
  induction l with
  | nil =>
    intro acc h v hv
    simp only [List.foldl_nil] at hv
    by_contra hpv
    have hc := h v (by simpa using hpv)
    simp only [List.count_nil, Nat.le_zero] at hc
    have := List.count_pos_iff.mpr hv
    omega
  | cons a l ih =>
    intro acc h v hv
    simp only [List.foldl_cons] at hv
    refine ih _ ?_ v hv
    intro x hx
    by_cases hpa : p a = true
    · simp only [hpa, if_true]
      have hxa : x ≠ a := by
        intro he
        rw [he, hpa] at hx
        exact absurd hx (by decide)
      have := h x hx
      rwa [List.count_cons_of_ne hxa] at this
    · have hpa' : p a = false := by simpa using hpa
      simp only [hpa', Bool.false_eq_true, if_false]
      by_cases hxa : x = a
      · subst hxa
        have := h x hx
        rw [List.count_cons_self] at this
        rw [List.count_erase_self]
        omega
      · rw [List.count_erase_of_ne hxa]
        have := h x hx
        rwa [List.count_cons_of_ne hxa] at this

/-- The erase loop never touches elements satisfying the keep predicate: their
multiplicity in the accumulator is preserved. -/
theorem foldl_erase_count_of_kept (p : FieldValue → Bool) :
    ∀ (l acc : List FieldValue) (x : FieldValue), p x = true →
      (List.foldl (fun acc v => if p v then acc else acc.erase v) acc l).count x =
        acc.count x := by
  intro l
  induction l with
  | nil => intro acc x _; rfl
  | cons a l ih =>
    intro acc x hx
    simp only [List.foldl_cons]
    rw [ih _ x hx]
    by_cases hpa : p a = true
    · simp [hpa]
    · have hpa' : p a = false := by simpa using hpa
      have hxa : x ≠ a := by
        intro he
        rw [he, hpa'] at hx
        exact absurd hx (by decide)
      simp [hpa', List.count_erase_of_ne hxa]

/-- Elements of `removeAbsentFields ff l` all have a key present in `ff`. -/
theorem mem_removeAbsentFields_present (ff : List FilterField) (l : List FieldValue) :
    ∀ v ∈ removeAbsentFields ff l, (ff.any fun f => f.key = v.key) = true := by
  unfold removeAbsentFields
  exact foldl_erase_mem_of_count_le (fun v => ff.any fun f => f.key = v.key) l l
    (fun _ _ => Nat.le_refl _)

/-- Elements whose key is present in `ff` are retained by `removeAbsentFields`. -/
theorem mem_removeAbsentFields_of_present (ff : List FilterField) (l : List FieldValue)
    (v : FieldValue) (hv : v ∈ l) (hp : (ff.any fun f => f.key = v.key) = true) :
    v ∈ removeAbsentFields ff l := by
  have hc : (removeAbsentFields ff l).count v = l.count v := by
    unfold removeAbsentFields
    exact foldl_erase_count_of_kept (fun v => ff.any fun f => f.key = v.key) l l v hp
  have : 0 < (removeAbsentFields ff l).count v := by
    rw [hc]
    exact List.count_pos_iff.mpr hv
  exact List.count_pos_iff.mp this

/-! Concrete fixtures for witnesses and counterexamples. -/

/-- Metadata for the spec's example project "OPS": custom field `f1` is
applicable to Bug only; issue types Bug and Task exist. -/
def mdOPS : JiraIssueMetadata :=
  { projectFields :=
      [("OPS", [{ key := "f1", name := "f1", issueTypes := [{ id := "Bug", name := "Bug" }] }])]
    issueTypes := [{ id := "Bug", name := "Bug" }, { id := "Task", name := "Task" }] }

/-- The spec example's state: project "OPS", issue type Bug, field f1 selected. -/
def stateOPS : CompState :=
  { filters :=
      { events := [], projects := ["OPS"], issue_types := ["Bug"], fields := [{ key := "f1" }] }
    fetchingIssueMetadata := false
    error := none
    getMetaDataErr := none
    submitting := false
    subscriptionName := some "sub"
    showConfirmModal := false
    conflictingError := none }

/-- Like `stateOPS` but with no custom field selected, so schema conflicts
touch only unselected fields. -/
def stateOPSNoFields : CompState :=
  { stateOPS with filters := { stateOPS.filters with fields := [] } }

/-- C1: expanding the issue-type selection (a longer selection) while at least
one currently selected custom field conflicts with a candidate issue type
rejects the change: the filters (in particular `issue_types`) keep their
prior value and `conflictingError` names the first conflicting issue type
(the first excluded type of the first conflict record) and comma-joins the
names of the conflicting fields that are currently selected. -/
theorem handleIssueChange_rejects_selected_conflict (md : Option JiraIssueMetadata)
    (value : Option (List String)) (s : CompState)
    (hlen : (value.getD []).length > s.filters.issue_types.length)
    (hsel : selectedConflicting md s (value.getD []) ≠ []) :
    (handleIssueChange md value s).filters = s.filters ∧
    (handleIssueChange md value s).conflictingError =
      some (conflictErrorStr
        (((projectConflictingFields md s (value.getD [])).headD default).issueTypes.headD
          default).name
        (String.intercalate ", "
          ((selectedConflicting md s (value.getD [])).map fun cf => cf.field.name))) := by
  rw [handleIssueChange_of_longer_selected md value s hlen hsel]
  exact ⟨rfl, rfl⟩

/-- C1 witness: the spec's example — FilterSet on "OPS" with field f1 and
issue type Bug; f1 is invalid for Task; selecting ["Bug","Task"] is rejected
with a message mentioning "Task" and "f1". -/
theorem handleIssueChange_rejects_selected_conflict_witness :
    (handleIssueChange (some mdOPS) (some ["Bug", "Task"]) stateOPS).filters =
      stateOPS.filters ∧
    (handleIssueChange (some mdOPS) (some ["Bug", "Task"]) stateOPS).conflictingError =
      some (conflictErrorStr "Task" "f1") := by
  have h := handleIssueChange_rejects_selected_conflict (some mdOPS)
    (some ["Bug", "Task"]) stateOPS (by decide) (by decide)
  exact ⟨h.1, h.2.trans (by decide)⟩

/-- C2: expanding the issue-type selection when no currently selected field is
among the conflicting records accepts the change — `issue_types` becomes the
new selection and `conflictingError` is cleared — even when unselected schema
fields conflict. -/
theorem handleIssueChange_accepts_unselected_conflict (md : Option JiraIssueMetadata)
    (value : Option (List String)) (s : CompState)
    (hlen : (value.getD []).length > s.filters.issue_types.length)
    (hsel : selectedConflicting md s (value.getD []) = []) :
    (handleIssueChange md value s).filters.issue_types = value.getD [] ∧
    (handleIssueChange md value s).conflictingError = none := by
  rw [handleIssueChange_of_longer_unselected md value s hlen hsel]
  exact ⟨rfl, rfl⟩

/-- C2 witness: same expansion as the spec example but with no selected
fields; the schema conflict on the unselected `f1` exists, yet the change is
accepted silently. -/
theorem handleIssueChange_accepts_unselected_conflict_witness :
    projectConflictingFields (some mdOPS) stateOPSNoFields ["Bug", "Task"] ≠ [] ∧
    (handleIssueChange (some mdOPS) (some ["Bug", "Task"]) stateOPSNoFields).filters.issue_types =
      ["Bug", "Task"] ∧
    (handleIssueChange (some mdOPS) (some ["Bug", "Task"]) stateOPSNoFields).conflictingError =
      none := by
  have h := handleIssueChange_accepts_unselected_conflict (some mdOPS)
    (some ["Bug", "Task"]) stateOPSNoFields (by decide) (by decide)
  exact ⟨by decide, h.1, h.2⟩

/-- C6 counterexample: the conflict check is gated on a longer selection, not
on a strict superset.  From previous selection ["Bug"], the call with
["Task", "Epic"] — longer but not a superset, since "Bug" is dropped — still
runs the conflict check and rejects the change, whereas the claim requires
that a non-expansion call performs no check and applies the change. -/
theorem handleIssueChange_longer_non_superset_checked :
    ("Bug" ∈ stateOPS.filters.issue_types ∧ "Bug" ∉ (["Task", "Epic"] : List String)) ∧
    (handleIssueChange (some mdOPS) (some ["Task", "Epic"]) stateOPS).filters.issue_types =
      ["Bug"] ∧
    (handleIssueChange (some mdOPS) (some ["Task", "Epic"]) stateOPS).conflictingError ≠
      none := by
  decide

/-- C6 (amended): the conflict recomputation in `handleIssueChange` runs
exactly when the new selection is strictly longer than the previous one.  A
not-longer call applies the change with no check (the result is independent
of the metadata); a longer call resolves by the conflict computation —
rejected iff some selected field conflicts. -/
theorem handleIssueChange_check_iff_longer (md md' : Option JiraIssueMetadata)
    (value : Option (List String)) (s : CompState) :
    (¬ (value.getD []).length > s.filters.issue_types.length →
      handleIssueChange md value s = issueChangeAccept s (value.getD []) ∧
      handleIssueChange md value s = handleIssueChange md' value s) ∧
    ((value.getD []).length > s.filters.issue_types.length →
      handleIssueChange md value s =
        if selectedConflicting md s (value.getD []) = []
        then issueChangeAccept s (value.getD [])
        else issueChangeReject md s (value.getD [])) := by
  constructor
  · intro h
    refine ⟨handleIssueChange_of_not_longer md value s h, ?_⟩
    rw [handleIssueChange_of_not_longer md value s h,
      handleIssueChange_of_not_longer md' value s h]
  · intro h
    by_cases hsel : selectedConflicting md s (value.getD []) = []
    · rw [if_pos hsel]
      exact handleIssueChange_of_longer_unselected md value s h hsel
    · rw [if_neg hsel]
      exact handleIssueChange_of_longer_selected md value s h hsel

/-- C6 witness: a shorter selection (clearing to []) is applied with no check,
with the same result under completely different metadata. -/
theorem handleIssueChange_check_iff_longer_witness :
    handleIssueChange (some mdOPS) (some []) stateOPS = issueChangeAccept stateOPS [] ∧
    handleIssueChange (some mdOPS) (some []) stateOPS =
      handleIssueChange none (some []) stateOPS :=
  (handleIssueChange_check_iff_longer (some mdOPS) none (some []) stateOPS).1 (by decide)

/-- C3: the payload built on submit drops every selected custom field whose
key is absent from the custom-field filters of the current metadata and
retains every field whose key is still present. -/
theorem buildSubscription_fields_sound (md : Option JiraIssueMetadata)
    (channelId : String) (selected : Option Subscription) (s : CompState) :
    (∀ v ∈ (buildSubscription md channelId selected s).filters.fields,
      ((getCustomFieldFiltersForProjects md s.filters.projects).any
        fun f => f.key = v.key) = true) ∧
    (∀ v ∈ s.filters.fields,
      ((getCustomFieldFiltersForProjects md s.filters.projects).any
        fun f => f.key = v.key) = true →
      v ∈ (buildSubscription md channelId selected s).filters.fields) := by
  constructor
  · intro v hv
    exact mem_removeAbsentFields_present
      (getCustomFieldFiltersForProjects md s.filters.projects) s.filters.fields v hv
  · intro v hv hp
    exact mem_removeAbsentFields_of_present
      (getCustomFieldFiltersForProjects md s.filters.projects) s.filters.fields v hv hp

/-- Metadata for the C3 witness: project "P" has only the field `f1`. -/
def mdP : JiraIssueMetadata :=
  { projectFields := [("P", [{ key := "f1", name := "f1", issueTypes := [] }])]
    issueTypes := [] }

/-- State for the C3 witness: fields `f1` (still in the schema) and `gone`
(deleted from the schema) are selected. -/
def stateP : CompState :=
  { filters :=
      { events := [], projects := ["P"], issue_types := [], fields := [⟨"f1"⟩, ⟨"gone"⟩] }
    fetchingIssueMetadata := false
    error := none
    getMetaDataErr := none
    submitting := false
    subscriptionName := some "sub"
    showConfirmModal := false
    conflictingError := none }

/-- C3 witness: on a state selecting `f1` and the schema-deleted `gone`, the
still-present `f1` is retained in the payload, and every payload field has a
present key. -/
theorem buildSubscription_fields_sound_witness :
    FieldValue.mk "f1" ∈ (buildSubscription (some mdP) "ch" none stateP).filters.fields ∧
    ((getCustomFieldFiltersForProjects (some mdP) stateP.filters.projects).any
      fun f => f.key = (FieldValue.mk "f1").key) = true :=
  ⟨(buildSubscription_fields_sound (some mdP) "ch" none stateP).2 ⟨"f1"⟩ (by decide)
      (by decide),
    (buildSubscription_fields_sound (some mdP) "ch" none stateP).1 ⟨"f1"⟩ (by decide)⟩

/-- The state reached by selecting project "A" from a fresh modal and then
switching the selection to project "B" before A's metadata response arrives. -/
def staleRunState : CompState :=
  (handleProjectChange (.str "B") ((handleProjectChange (.str "A") (initState none)).1)).1

/-- C4 counterexample: no stale-response guard exists.  A fetch for ["A"] is
started, the selection moves to "B" (a new fetch is in flight,
`fetchingIssueMetadata = true`, `getMetaDataErr = null`), and applying A's
late errored response changes the state: it clears the fetching flag while
B's fetch is still pending and sets a metadata error naming the superseded
project "A". -/
theorem applyFetchResult_stale_not_ignored :
    (handleProjectChange (.str "A") (initState none)).2 = some ["A"] ∧
    staleRunState.filters.projects = ["B"] ∧
    staleRunState.fetchingIssueMetadata = true ∧
    staleRunState.getMetaDataErr = none ∧
    (applyFetchResult none ["A"] { error := some "err", data := none }
        staleRunState).fetchingIssueMetadata = false ∧
    (applyFetchResult none ["A"] { error := some "err", data := none }
        staleRunState).getMetaDataErr = some (metaDataErrMsg ["A"]) ∧
    applyFetchResult none ["A"] { error := some "err", data := none } staleRunState ≠
      staleRunState := by
  decide

/-- C4 (amended): a late-arriving response for a superseded project is applied
anyway — it unconditionally clears the fetching flag and, when it carried an
error, overwrites the metadata-error message naming the stale project — but
it never modifies the filter selection or the remaining form state
(submitting, name, confirm modal, conflict message). -/
theorem applyFetchResult_preserves_filters (md : Option JiraIssueMetadata)
    (projectKeys : List String) (fetched : FetchResult) (s : CompState) :
    (applyFetchResult md projectKeys fetched s).filters = s.filters ∧
    (applyFetchResult md projectKeys fetched s).submitting = s.submitting ∧
    (applyFetchResult md projectKeys fetched s).subscriptionName = s.subscriptionName ∧
    (applyFetchResult md projectKeys fetched s).showConfirmModal = s.showConfirmModal ∧
    (applyFetchResult md projectKeys fetched s).conflictingError = s.conflictingError :=
  ⟨rfl, rfl, rfl, rfl, rfl⟩

/-- C5: changing the project selection — to any value, including none —
replaces the FilterSet with a fresh one: events, issue types, and fields are
all empty afterwards. -/
theorem handleProjectChange_clears_filters (value : SettingValue) (s : CompState) :
    ((handleProjectChange value s).1).filters.events = [] ∧
    ((handleProjectChange value s).1).filters.issue_types = [] ∧
    ((handleProjectChange value s).1).filters.fields = [] :=
  ⟨rfl, rfl, rfl⟩

/-- C7: a metadata fetch result with a top-level `error` and one with a
`data.error` produce the same metadata-unavailable message, and a result with
neither leaves `getMetaDataErr` untouched — no such message is produced. -/
theorem fetchError_message_uniform (md : Option JiraIssueMetadata)
    (projectKeys : List String) (s : CompState) (e de : String)
    (d : Option FetchedData) :
    (applyFetchResult md projectKeys { error := some e, data := d } s).getMetaDataErr =
      some (metaDataErrMsg projectKeys) ∧
    (applyFetchResult md projectKeys { error := none, data := some { error := some de } }
        s).getMetaDataErr = some (metaDataErrMsg projectKeys) ∧
    (applyFetchResult md projectKeys { error := none, data := some { error := none } }
        s).getMetaDataErr = s.getMetaDataErr ∧
    (applyFetchResult md projectKeys { error := none, data := none } s).getMetaDataErr =
      s.getMetaDataErr :=
  ⟨rfl, rfl, rfl, rfl⟩

/-- C8: when create, edit, or delete resolves with an error, the error's
message is surfaced verbatim into the error state, the modal is not closed
(`finishEditSubscription` does not run, the boolean component), and the
in-progress filter state is unchanged; submission ends so the user can
retry. -/
theorem persistence_error_keeps_form_open (s : CompState) (msg : String) :
    (applySubmitResult { error := some { message := msg } } s).1.error = some msg ∧
    (applySubmitResult { error := some { message := msg } } s).1.filters = s.filters ∧
    (applySubmitResult { error := some { message := msg } } s).1.submitting = false ∧
    (applySubmitResult { error := some { message := msg } } s).2 = false ∧
    (applyDeleteResult { error := some { message := msg } } s).1.error = some msg ∧
    (applyDeleteResult { error := some { message := msg } } s).1.filters = s.filters ∧
    (applyDeleteResult { error := some { message := msg } } s).2 = false :=
  ⟨rfl, rfl, rfl, rfl, rfl, rfl, rfl⟩

theorem getFilterKey_setFilterKey (k : SettingKey) (xs : List String) (f : Filters) :
    getFilterKey k (setFilterKey k xs f) = xs := by
  cases k <;> rfl

/-- C9 counterexample: the handlers test JS falsiness (`!finalValue`), not
null/undefined, so the empty string — a non-array input value — is normalized
to the empty list rather than wrapped into a one-element list. -/
theorem normalize_empty_string_not_wrapped :
    (handleSettingChange .events (.str "") (initState none)).filters.events = [] ∧
    (handleSettingChange .events (.str "") (initState none)).filters.events ≠ [""] := by
  decide

/-- C9 (amended): the cited operations keep the filter keys arrays — a falsy
input (null/undefined or the empty string) is normalized to the empty list, a
truthy non-array input is wrapped into a one-element list, an array passes
through, a null issue-type value becomes the empty list, and a seeded
subscription with missing `fields` gets an empty fields list in the
constructor. -/
theorem filters_normalization (k : SettingKey) (s : CompState) (v : String)
    (l : List String) (md : Option JiraIssueMetadata) (sub : Subscription) :
    getFilterKey k (handleSettingChange k .null s).filters = [] ∧
    getFilterKey k (handleSettingChange k (.str "") s).filters = [] ∧
    (v ≠ "" → getFilterKey k (handleSettingChange k (.str v) s).filters = [v]) ∧
    getFilterKey k (handleSettingChange k (.list l) s).filters = l ∧
    ((handleProjectChange .null s).1).filters.projects = [] ∧
    (v ≠ "" → ((handleProjectChange (.str v) s).1).filters.projects = [v]) ∧
    ((handleProjectChange (.list l) s).1).filters.projects = l ∧
    (sub.filters.fields = none → (initFilters (some sub)).fields = []) ∧
    (handleIssueChange md none s).filters.issue_types = [] := by
  refine ⟨?_, ?_, ?_, ?_, ?_, ?_, ?_, ?_, ?_⟩
  · simpa [handleSettingChange, normalizeSettingValue] using
      getFilterKey_setFilterKey k [] s.filters
  · simpa [handleSettingChange, normalizeSettingValue] using
      getFilterKey_setFilterKey k [] s.filters
  · intro hv
    simpa [handleSettingChange, normalizeSettingValue, hv] using
      getFilterKey_setFilterKey k [v] s.filters
  · simpa [handleSettingChange, normalizeSettingValue] using
      getFilterKey_setFilterKey k l s.filters
  · rfl
  · intro hv
    simp [handleProjectChange, normalizeSettingValue, hv]
  · rfl
  · intro hf
    simp [initFilters, hf]
  · have h := handleIssueChange_of_not_longer md none s (by simp)
    rw [h]
    rfl

/-- A stored subscription whose filters carry no `fields` entry, for the C9
witness. -/
def seededNoFieldsSub : Subscription :=
  { id := "i"
    channel_id := "c"
    name := "n"
    filters := { events := ["e"], projects := ["p"], issue_types := ["t"], fields := none } }

/-- C9 witness: concrete instances of each normalization, with the nonempty
string hypotheses discharged at "x". -/
theorem filters_normalization_witness :
    getFilterKey .events (handleSettingChange .events (.str "x")
      (initState none)).filters = ["x"] ∧
    ((handleProjectChange (.str "x") (initState none)).1).filters.projects = ["x"] ∧
    (initFilters (some seededNoFieldsSub)).fields = [] := by
  have h := filters_normalization SettingKey.events (initState none) "x" []
    none seededNoFieldsSub
  exact ⟨h.2.2.1 (by decide), h.2.2.2.2.2.1 (by decide), h.2.2.2.2.2.2.2.1 rfl⟩

/-- C10 counterexample: the claim's prefix characterization fails at the
boundary.  The message "/jira createx" starts with the "/jira create" prefix,
yet the hook forwards it unchanged instead of resolving to the empty object:
the create branch requires a trailing space or an exact match. -/
theorem hook_boundary_forwarded :
    strStartsWith "/jira createx" "/jira create" = true ∧
    (slashCommandWillBePostedHook
        { instanceInstalled := true, userConnected := true,
          installedInstanceType := "cloud", desktopApp := false,
          minimumDesktopAppVersion430 := true }
        "/jira createx" { channel_id := "c" }).1 =
      HookResult.forward "/jira createx" { channel_id := "c" } := by
  decide

/-- C10 (amended): for every store state, message, and context, the hook
resolves either to the empty object (exactly when the message is handled:
truthy and matching one of the branch guards, where create and subscribe need
a trailing space or exact match and connect matches any "/jira connect"
prefix) or to the original message and args, both unchanged; it never
forwards a modified message. -/
theorem hook_result_characterization (st : StoreState) (m : String)
    (a : ContextArgs) :
    (slashCommandWillBePostedHook st m a).1 =
      if handledMessage m then HookResult.empty else HookResult.forward m a := by
  unfold slashCommandWillBePostedHook handledMessage
  by_cases h0 : m = ""
  · subst h0
    rfl
  · cases hc : matchesCreate m <;> cases hn : matchesConnect m <;>
      cases hs : matchesSubscribe m <;>
      simp [h0, hc, hn, hs, apply_ite Prod.fst]

end JiraPlugin
